import Mathlib

/-!
Shallow embedding of `telegram_trello_bot.py` (AlfaGEN TG-to-Trello bridge).

The program is a Telegram bot that turns chat commands into Trello cards.
We model:
  * the Board Client operations `create_trello_card` and `get_trello_lists`
    (which wrap one HTTP call each and decode the JSON body),
  * the two card-creating command handlers
    `telegram_create_card_command` (`/createcard <list> <title...>`) and
    `telegram_trello_reply_command` (`/trello` as a reply),
  * the startup configuration check in `main`.

Stateful/IO aspects are made explicit:
  * the outcome of each outbound HTTP call is an input to the function
    (the environment supplies what the network would have returned);
  * a handler's observable behaviour is the ordered list of outbound calls
    it makes plus the ordered list of chat replies it sends.

Python strings are modelled as Lean `String`; Python `len` and slicing
operate on code points, matching `String.length` and `String.data` here.
-/

/-- A Trello board list as decoded from the JSON array returned by
`GET /boards/:id/lists`: the code reads exactly the fields `id` and `name`. -/
structure BoardList where
  id : String
  name : String
deriving Repr, DecidableEq

/-- Errors raised while performing a Board Client call, as the `requests`
library raises them in the Python source: `requests.post`/`requests.get`
raise on a network failure, and `Response.json()` raises when the body is
not decodable JSON.  Each constructor carries the underlying cause. -/
inductive UpstreamError where
  | networkError (cause : String)
  | decodeError (cause : String)
deriving Repr, DecidableEq

/-- The message text of an error, as Python `str(e)` produces it. -/
def UpstreamError.message : UpstreamError → String
  | .networkError c => c
  | .decodeError c => c

/-- What the board service's HTTP endpoint for lists would yield for one call:
either the network call itself fails, or a response arrives with a status
code and a body.  `body = none` models a body that is not decodable JSON;
`body = some ls` models a decodable body carrying the board lists. -/
inductive ListsHttpOutcome where
  | netFailure (cause : String)
  | response (status : Nat) (body : Option (List BoardList))
deriving Repr, DecidableEq

/-- The decoded JSON body of a card-creation response (the source returns
`response.json()` without inspecting it further, so we keep it opaque). -/
structure CardResponse where
  raw : String
deriving Repr, DecidableEq

/-- What the board service's card-creation endpoint would yield for one call,
analogous to `ListsHttpOutcome`. -/
inductive CardHttpOutcome where
  | netFailure (cause : String)
  | response (status : Nat) (body : Option CardResponse)
deriving Repr, DecidableEq

/-- `TelegramTrelloBotManager.get_trello_lists`: performs
`requests.get(url, params)` and returns `response.json()`.  `requests.get`
raises on network failure and `json()` raises on an undecodable body; the
source never consults `response.status_code` (no `raise_for_status`), so the
status is ignored here exactly as in the code. -/
def get_trello_lists : ListsHttpOutcome → Except UpstreamError (List BoardList)
  | .netFailure cause => .error (.networkError cause)
  | .response _ none => .error (.decodeError "Expecting value: response body is not valid JSON")
  | .response _ (some lists) => .ok lists

/-- `TelegramTrelloBotManager.create_trello_card`: performs
`requests.post(url, params)` and returns `response.json()`.  Same
`requests` semantics as `get_trello_lists`: raises on network failure or an
undecodable body, never inspects the status code. -/
def create_trello_card : CardHttpOutcome → Except UpstreamError CardResponse
  | .netFailure cause => .error (.networkError cause)
  | .response _ none => .error (.decodeError "Expecting value: response body is not valid JSON")
  | .response _ (some card) => .ok card

/-- One outbound Board Client call made by a handler, with the parameters
that would be sent upstream.  `createCard` records `idList`, `name` and
`desc` as passed to `create_trello_card` (the handlers always leave the
description at its default `""`). -/
inductive Call where
  | listLists
  | createCard (idList : String) (name : String) (desc : String)
deriving Repr, DecidableEq

/-- The observable behaviour of one handler invocation: the outbound Board
Client calls in the order attempted, and the chat replies in the order sent. -/
structure HandlerOut where
  calls : List Call
  replies : List String
deriving Repr, DecidableEq

/-- `self.default_list_name` as set in `__init__`. -/
def default_list_name : String := "Todo"

/-- The usage reply of `/createcard` when fewer than two tokens are given
(two adjacent Python string literals concatenate). -/
def createcardUsageMsg : String :=
  "Usage: /createcard <list_name> <card_title>\nExample: /createcard Todo \x27Buy groceries\x27"

/-- The instructional reply of `/trello` when the message is not a reply. -/
def trelloNotReplyMsg : String :=
  "Please use /trello as a reply to a message you want to create a Trello card for."

/-- The reply of `/trello` when the replied-to message has no usable text. -/
def trelloNoTextMsg : String :=
  "The message you replied to doesn\x27t contain any text."

/-- Python `str.lower()`: lowercase the string character by character
(`String.toLower` does the same but is stated structurally on the
character list here so that it evaluates on concrete inputs). -/
def strLower (s : String) : String :=
  String.mk (s.data.map Char.toLower)

/-- The shared list lookup: both handlers run
`next((lst for lst in lists if lst['name'].lower() == name.lower()), None)`,
i.e. the first list whose lowercased name equals the lowercased query. -/
def findMatchingList (lists : List BoardList) (query : String) : Option BoardList :=
  lists.find? (fun lst => strLower lst.name == strLower query)

/-- The environment of one `/createcard` invocation: the argument tokens
(`context.args`, which Telegram splits on whitespace) and what the two
possible HTTP calls would return if attempted. -/
structure CreateEnv where
  args : List String
  listsOutcome : ListsHttpOutcome
  cardOutcome : CardHttpOutcome
deriving Repr, DecidableEq

/-- `TelegramTrelloBotManager.telegram_create_card_command`.  The Python
guard `if not context.args or len(context.args) < 2` is exactly the first
two match arms (an empty or one-element token list). -/
def telegram_create_card_command (env : CreateEnv) : HandlerOut :=
  match env.args with
  | [] => ⟨[], [createcardUsageMsg]⟩
  | [_] => ⟨[], [createcardUsageMsg]⟩
  | list_name :: rest =>
    let card_title := String.intercalate " " rest
    match get_trello_lists env.listsOutcome with
    | .error e => ⟨[.listLists], ["Error retrieving Trello lists: " ++ e.message]⟩
    | .ok lists =>
      match findMatchingList lists list_name with
      | none => ⟨[.listLists], ["No list found with name: " ++ list_name]⟩
      | some matching_list =>
        match create_trello_card env.cardOutcome with
        | .ok _ =>
          ⟨[.listLists, .createCard matching_list.id card_title ""],
           ["Card \x27" ++ card_title ++ "\x27 created in list \x27" ++ list_name ++ "\x27!"]⟩
        | .error e =>
          ⟨[.listLists, .createCard matching_list.id card_title ""],
           ["Error creating card: " ++ e.message]⟩

/-- The replied-to Telegram message seen by `/trello`: its `text` field and
its `caption` field, each possibly absent (`None`). -/
structure RepliedMessage where
  text : Option String
  caption : Option String
deriving Repr, DecidableEq

/-- Python `a or b` on two optional strings: `a` unless it is falsy
(`None` or the empty string), in which case `b`. -/
def pyOr (a b : Option String) : Option String :=
  match a with
  | none => b
  | some s => if s = "" then b else some s

/-- Python falsiness of an optional string (`not x` is true exactly when
`x` is `None` or `""`). -/
def pyFalsy : Option String → Bool
  | none => true
  | some s => s == ""

/-- The card-name derivation of the reply handler:
`original_message[:150] + '...' if len(original_message) > 150 else original_message`.
The slice keeps the first 150 code points. -/
def deriveCardName (original_message : String) : String :=
  if original_message.length > 150
  then String.mk (original_message.data.take 150) ++ "..."
  else original_message

/-- The environment of one `/trello` invocation: the replied-to message, if
the command was a reply at all, and what the two possible HTTP calls would
return if attempted. -/
structure ReplyEnv where
  reply_to_message : Option RepliedMessage
  listsOutcome : ListsHttpOutcome
  cardOutcome : CardHttpOutcome
deriving Repr, DecidableEq

/-- `TelegramTrelloBotManager.telegram_trello_reply_command`.
`original_message = reply.text or reply.caption`; the guard
`if not original_message` fires on `None` and on `""`. -/
def telegram_trello_reply_command (env : ReplyEnv) : HandlerOut :=
  match env.reply_to_message with
  | none => ⟨[], [trelloNotReplyMsg]⟩
  | some reply =>
    match pyOr reply.text reply.caption with
    | none => ⟨[], [trelloNoTextMsg]⟩
    | some original_message =>
      if original_message = "" then ⟨[], [trelloNoTextMsg]⟩
      else
        match get_trello_lists env.listsOutcome with
        | .error e => ⟨[.listLists], ["Error retrieving Trello lists: " ++ e.message]⟩
        | .ok lists =>
          match findMatchingList lists default_list_name with
          | none =>
            ⟨[.listLists],
             ["No \x27" ++ default_list_name ++ "\x27 list found in the board."]⟩
          | some todo_list =>
            let card_name := deriveCardName original_message
            match create_trello_card env.cardOutcome with
            | .ok _ =>
              ⟨[.listLists, .createCard todo_list.id card_name ""],
               ["Card created in " ++ default_list_name ++ " list!"]⟩
            | .error e =>
              ⟨[.listLists, .createCard todo_list.id card_name ""],
               ["Error creating card: " ++ e.message]⟩

/-- The four environment values read by `main` (`os.getenv` yields `None`
for an unset variable). -/
structure Config where
  telegram_bot_token : Option String
  trello_api_key : Option String
  trello_token : Option String
  trello_board_id : Option String
deriving Repr, DecidableEq

/-- Python `all([...])` over the four values: every one must be truthy
(set and non-empty). -/
def configAllSet (cfg : Config) : Bool :=
  !(pyFalsy cfg.telegram_bot_token) && !(pyFalsy cfg.trello_api_key) &&
  !(pyFalsy cfg.trello_token) && !(pyFalsy cfg.trello_board_id)

/-- What `main` prints when the credential check fails: a fixed banner and
the fixed list of all four variable names, independent of which are unset. -/
def missingVarsPrintout : List String :=
  ["Please set all required environment variables:",
   "- TELEGRAM_BOT_TOKEN",
   "- TRELLO_API_KEY",
   "- TRELLO_TOKEN",
   "- TRELLO_BOARD_ID"]

/-- The names of the configuration variables that are actually unset or
empty in `cfg` (what a printout identifying the missing values would
contain; defined for comparison with `missingVarsPrintout`). -/
def missingVarNames (cfg : Config) : List String :=
  (if pyFalsy cfg.telegram_bot_token then ["TELEGRAM_BOT_TOKEN"] else []) ++
  (if pyFalsy cfg.trello_api_key then ["TRELLO_API_KEY"] else []) ++
  (if pyFalsy cfg.trello_token then ["TRELLO_TOKEN"] else []) ++
  (if pyFalsy cfg.trello_board_id then ["TRELLO_BOARD_ID"] else [])

/-- Outcome of startup: either `main` returns early after printing the
`configError` lines (no `Application` is built, no polling starts), or it
proceeds to build the transport and start the receive loop. -/
inductive StartupResult where
  | configError (printed : List String)
  | started
deriving Repr, DecidableEq

/-- The credential-validation phase of `main`: on a falsy value among the
four it logs, prints the fixed variable list and returns before any
Telegram `Application` is constructed; otherwise it wires the handlers and
starts polling. -/
def mainStartup (cfg : Config) : StartupResult :=
  if configAllSet cfg then .started else .configError missingVarsPrintout

/-! ### Concrete inputs used to instantiate the theorems -/

/-- The spec's round-trip scenario: `/createcard Doing "Buy milk"` with the
board service returning lists `[{id:"1",name:"Todo"},{id:"2",name:"Doing"}]`
and a successful card creation. -/
def roundTripEnv : CreateEnv :=
  ⟨["Doing", "Buy milk"],
   .response 200 (some [⟨"1", "Todo"⟩, ⟨"2", "Doing"⟩]),
   .response 200 (some ⟨"card-json"⟩)⟩

/-- A 200-character message (the spec's truncation scenario). -/
def msg200 : String := String.mk (List.replicate 200 'a')

/-- A 100-character message (the spec's pass-through scenario). -/
def msg100 : String := String.mk (List.replicate 100 'b')

/-- A `/trello` invocation replying to the 200-character message, with a
board that has a `Todo` list and a successful card creation. -/
def truncEnv : ReplyEnv :=
  ⟨some ⟨some msg200, none⟩,
   .response 200 (some [⟨"5", "Todo"⟩]),
   .response 200 (some ⟨"card-json"⟩)⟩

/-! ### Helper lemmas -/

/-- Python `a or b` is falsy exactly when both operands are falsy. -/
theorem pyFalsy_pyOr (a b : Option String) :
    pyFalsy (pyOr a b) = (pyFalsy a && pyFalsy b) := by
  cases a with
  | none => rfl
  | some s =>
    by_cases hs : s = "" <;> simp [pyOr, pyFalsy, hs]

/-- Once the reply handler has extracted a non-empty source text, it always
attempts the list fetch, and any card it sends upstream is named by
`deriveCardName` applied to that text. -/
theorem reply_calls_characterization (env : ReplyEnv) (reply : RepliedMessage)
    (s : String) (h : env.reply_to_message = some reply)
    (hpo : pyOr reply.text reply.caption = some s) (hs : s ≠ "") :
    Call.listLists ∈ (telegram_trello_reply_command env).calls ∧
    ∀ i n d, Call.createCard i n d ∈ (telegram_trello_reply_command env).calls →
      n = deriveCardName s := by
  simp only [telegram_trello_reply_command, h, hpo, if_neg hs]
  split
  · exact ⟨by simp, by intro i n d hmem; simp at hmem⟩
  · split
    · exact ⟨by simp, by intro i n d hmem; simp at hmem⟩
    · split
      all_goals refine ⟨by simp, ?_⟩
      all_goals intro i n d hmem
      all_goals simp at hmem
      all_goals exact hmem.2.1

/-! ### Claim theorems -/

/-- Claim C2: the list lookup shared by both handlers selects a list if and
only if its name equals the queried name under case-insensitive exact
comparison (equality of the lowercased strings, not substring or fuzzy
matching), and among several matches it selects the first in the order the
board service returned them. -/
theorem findMatchingList_first_ci_exact_match (lists : List BoardList)
    (query : String) (l : BoardList) :
    findMatchingList lists query = some l ↔
      strLower l.name = strLower query ∧
      ∃ pre suf, lists = pre ++ l :: suf ∧
        ∀ x ∈ pre, strLower x.name ≠ strLower query := by
  rw [findMatchingList, List.find?_eq_some]
  simp

/-- Claim C5 (as proved): every `/createcard` invocation with fewer than two
argument tokens (including none) yields the usage reply and no outbound
call of any kind. -/
theorem createcard_few_args_usage_no_calls (env : CreateEnv)
    (h : env.args.length < 2) :
    telegram_create_card_command env = ⟨[], [createcardUsageMsg]⟩ := by
  obtain ⟨args, lo, co⟩ := env
  rcases args with _ | ⟨a, _ | ⟨b, rest⟩⟩
  · rfl
  · rfl
  · simp only [List.length_cons] at h
    omega

/-- Witness for C5: the one-token invocation `/createcard Todo`. -/
theorem createcard_few_args_usage_no_calls_witness :
    telegram_create_card_command ⟨["Todo"], .netFailure "down", .netFailure "down"⟩
      = ⟨[], [createcardUsageMsg]⟩ :=
  createcard_few_args_usage_no_calls ⟨["Todo"], .netFailure "down", .netFailure "down"⟩
    (by decide)

/-- Claim C6 (as proved): a `/trello` invocation that is not a reply yields
only the instructional reply and no outbound call of any kind. -/
theorem trello_not_reply_instruction_no_calls (env : ReplyEnv)
    (h : env.reply_to_message = none) :
    telegram_trello_reply_command env = ⟨[], [trelloNotReplyMsg]⟩ := by
  obtain ⟨r, lo, co⟩ := env
  cases r with
  | none => rfl
  | some m => simp at h

/-- Witness for C6: `/trello` sent as a plain message. -/
theorem trello_not_reply_instruction_no_calls_witness :
    telegram_trello_reply_command ⟨none, .netFailure "down", .netFailure "down"⟩
      = ⟨[], [trelloNotReplyMsg]⟩ :=
  trello_not_reply_instruction_no_calls ⟨none, .netFailure "down", .netFailure "down"⟩
    rfl

set_option maxRecDepth 8000 in
/-- Counterexample for C4: replying to the 200-character message derives a
card name of 153 characters, so the derived name is not bounded by 150. -/
theorem deriveCardName_over_150_counterexample :
    ¬ (deriveCardName msg200).length ≤ 150 := by decide

/-- Claim C4 as amended: for every replied-to source text, the derived card
name is at most 153 characters long (at most 150 characters of the source
plus the 3-character ellipsis marker). -/
theorem deriveCardName_length_le_153 (s : String) :
    (deriveCardName s).length ≤ 153 := by
  unfold deriveCardName
  split
  · rw [String.length_append]
    have h1 : (String.mk (s.data.take 150)).length = (s.data.take 150).length := rfl
    have h2 : (s.data.take 150).length ≤ 150 := by
      rw [List.length_take]
      exact min_le_left _ _
    have h3 : ("..." : String).length = 3 := rfl
    omega
  · next hlen =>
    have : s.length ≤ 150 := by omega
    exact this.trans (by omega)

/-- Counterexample for C8: the Board Client never inspects the HTTP status
code, so a non-success status with a decodable body succeeds rather than
failing with an `UpstreamError`. -/
theorem upstream_status_ignored_counterexample :
    get_trello_lists (.response 404 (some [])) = .ok [] ∧
    create_trello_card (.response 500 (some ⟨"error page"⟩)) = .ok ⟨"error page"⟩ :=
  ⟨rfl, rfl⟩

/-- Claim C8 as amended: `get_trello_lists` and `create_trello_card` fail
with an `UpstreamError` exactly when the network call fails or the response
body cannot be decoded; the HTTP status is not inspected; a network failure
produces an error carrying the underlying cause. -/
theorem upstream_error_characterization :
    (∀ o : ListsHttpOutcome,
       (∃ e, get_trello_lists o = .error e) ↔
         ((∃ c, o = .netFailure c) ∨ (∃ st, o = .response st none))) ∧
    (∀ c, get_trello_lists (.netFailure c) = .error (.networkError c)) ∧
    (∀ o : CardHttpOutcome,
       (∃ e, create_trello_card o = .error e) ↔
         ((∃ c, o = .netFailure c) ∨ (∃ st, o = .response st none))) ∧
    (∀ c, create_trello_card (.netFailure c) = .error (.networkError c)) := by
  refine ⟨?_, fun c => rfl, ?_, fun c => rfl⟩
  · intro o
    cases o with
    | netFailure c => simp [get_trello_lists]
    | response st body =>
      cases body with
      | none => simp [get_trello_lists]
      | some lists => simp [get_trello_lists]
  · intro o
    cases o with
    | netFailure c => simp [create_trello_card]
    | response st body =>
      cases body with
      | none => simp [create_trello_card]
      | some card => simp [create_trello_card]

/-- Claim C1: on the round-trip scenario the handler makes exactly one
create-card call with `idList="2"` and `name="Buy milk"` (after the single
list fetch), and in general every invocation with at least two tokens sends
upstream a card title equal to the tokens after the first joined by a
single space. -/
theorem createcard_roundtrip_and_title :
    (telegram_create_card_command roundTripEnv).calls
        = [.listLists, .createCard "2" "Buy milk" ""] ∧
    ∀ (env : CreateEnv), 2 ≤ env.args.length →
      ∀ i n d, Call.createCard i n d ∈ (telegram_create_card_command env).calls →
        n = String.intercalate " " env.args.tail := by
  constructor
  · decide
  · intro env h i n d hmem
    obtain ⟨args, lo, co⟩ := env
    rcases args with _ | ⟨a, _ | ⟨b, rest⟩⟩
    · simp at h
    · simp at h
    · simp only [telegram_create_card_command, List.tail_cons] at hmem ⊢
      split at hmem
      · simp at hmem
      · split at hmem
        · simp at hmem
        · split at hmem
          all_goals simp at hmem
          all_goals exact hmem.2.1

/-- Witness for C1: the round-trip invocation itself, where the title sent
upstream is the join of the tokens after the first. -/
theorem createcard_title_join_witness :
    2 ≤ roundTripEnv.args.length ∧
    "Buy milk" = String.intercalate " " roundTripEnv.args.tail :=
  ⟨by decide,
   createcard_roundtrip_and_title.2 roundTripEnv (by decide) "2" "Buy milk" ""
     (by decide)⟩

/-- Claim C3: in the reply handler, a source text longer than 150 characters
derives a card name that is exactly its first 150 characters followed by
the ellipsis marker (153 characters in total), a text of at most 150
characters is passed through verbatim, and every card the handler sends
upstream for source text `s` is named `deriveCardName s`. -/
theorem reply_card_name_truncation (s : String) :
    (150 < s.length →
       deriveCardName s = String.mk (s.data.take 150) ++ "..." ∧
       (deriveCardName s).length = 153) ∧
    (s.length ≤ 150 → deriveCardName s = s) ∧
    ∀ (env : ReplyEnv) (reply : RepliedMessage),
      env.reply_to_message = some reply → reply.text = some s → s ≠ "" →
      ∀ i n d, Call.createCard i n d ∈ (telegram_trello_reply_command env).calls →
        n = deriveCardName s := by
  refine ⟨?_, ?_, ?_⟩
  · intro h
    have hd : deriveCardName s = String.mk (s.data.take 150) ++ "..." := by
      unfold deriveCardName
      rw [if_pos h]
    refine ⟨hd, ?_⟩
    rw [hd, String.length_append]
    have h1 : (String.mk (s.data.take 150)).length = (s.data.take 150).length := rfl
    have h2 : (s.data.take 150).length = 150 := by
      rw [List.length_take]
      have hds : s.length = s.data.length := rfl
      omega
    have h3 : ("..." : String).length = 3 := rfl
    omega
  · intro h
    unfold deriveCardName
    rw [if_neg (by omega)]
  · intro env reply hr ht hs i n d hmem
    have hpo : pyOr reply.text reply.caption = some s := by
      rw [ht]
      simp [pyOr, hs]
    exact (reply_calls_characterization env reply s hr hpo hs).2 i n d hmem

set_option maxRecDepth 8000 in
/-- Witness for C3: the 200-character message truncates to 153 characters,
the 100-character message passes through unchanged, and a concrete `/trello`
invocation replying to the 200-character message names its card by the
derivation. -/
theorem reply_card_name_truncation_witness :
    150 < msg200.length ∧ (deriveCardName msg200).length = 153 ∧
    msg100.length ≤ 150 ∧ deriveCardName msg100 = msg100 ∧
    deriveCardName msg200 = deriveCardName msg200 :=
  ⟨by decide,
   ((reply_card_name_truncation msg200).1 (by decide)).2,
   by decide,
   (reply_card_name_truncation msg100).2.1 (by decide),
   (reply_card_name_truncation msg200).2.2 truncEnv ⟨some msg200, none⟩ rfl rfl
     (by decide) "5" (deriveCardName msg200) "" (by decide)⟩

/-- Claim C7 (as proved): in both card-creating handlers, a failed list
fetch yields exactly one reply, the error message carrying the failure
detail, and the only outbound call is the failed list fetch — no
create-card call happens. -/
theorem list_fetch_failure_error_reply_no_create
    (env1 : CreateEnv) (env2 : ReplyEnv) (reply : RepliedMessage)
    (e1 e2 : UpstreamError)
    (h1 : get_trello_lists env1.listsOutcome = .error e1)
    (hargs : 2 ≤ env1.args.length)
    (h2 : get_trello_lists env2.listsOutcome = .error e2)
    (hr : env2.reply_to_message = some reply)
    (ht : pyFalsy (pyOr reply.text reply.caption) = false) :
    telegram_create_card_command env1
        = ⟨[.listLists], ["Error retrieving Trello lists: " ++ e1.message]⟩ ∧
    telegram_trello_reply_command env2
        = ⟨[.listLists], ["Error retrieving Trello lists: " ++ e2.message]⟩ := by
  constructor
  · obtain ⟨args, lo, co⟩ := env1
    dsimp only at h1
    rcases args with _ | ⟨a, _ | ⟨b, rest⟩⟩
    · simp at hargs
    · simp at hargs
    · simp [telegram_create_card_command, h1]
  · cases hpo : pyOr reply.text reply.caption with
    | none =>
      rw [hpo] at ht
      simp [pyFalsy] at ht
    | some s =>
      rw [hpo] at ht
      have hs : s ≠ "" := by simpa [pyFalsy] using ht
      simp only [telegram_trello_reply_command, hr, hpo, if_neg hs]
      simp [h2]

/-- Witness for C7: both handlers hitting a network failure on the list
fetch. -/
theorem list_fetch_failure_error_reply_no_create_witness :
    telegram_create_card_command ⟨["Doing", "Buy", "milk"], .netFailure "boom",
        .response 200 (some ⟨"x"⟩)⟩
      = ⟨[.listLists], ["Error retrieving Trello lists: "
          ++ (UpstreamError.networkError "boom").message]⟩ ∧
    telegram_trello_reply_command ⟨some ⟨some "hello", none⟩, .netFailure "gone",
        .response 200 (some ⟨"x"⟩)⟩
      = ⟨[.listLists], ["Error retrieving Trello lists: "
          ++ (UpstreamError.networkError "gone").message]⟩ :=
  list_fetch_failure_error_reply_no_create
    ⟨["Doing", "Buy", "milk"], .netFailure "boom", .response 200 (some ⟨"x"⟩)⟩
    ⟨some ⟨some "hello", none⟩, .netFailure "gone", .response 200 (some ⟨"x"⟩)⟩
    ⟨some "hello", none⟩ (.networkError "boom") (.networkError "gone")
    rfl (by decide) rfl rfl (by decide)

/-- A configuration in which only the Telegram token is unset. -/
def cfgMissingTelegram : Config := ⟨none, some "key", some "token", some "board"⟩

/-- A configuration in which only the board identifier is unset. -/
def cfgMissingBoard : Config := ⟨some "tg", some "key", some "token", none⟩

/-- Counterexample for C9: startups missing different values produce the
identical printout (the fixed list of all four variable names), which also
differs from the list of actually-missing names, so the output does not
identify which of the four values is missing. -/
theorem startup_printout_counterexample :
    missingVarNames cfgMissingTelegram ≠ missingVarNames cfgMissingBoard ∧
    mainStartup cfgMissingTelegram = mainStartup cfgMissingBoard ∧
    mainStartup cfgMissingTelegram = .configError missingVarsPrintout ∧
    missingVarsPrintout ≠ missingVarNames cfgMissingTelegram := by
  exact ⟨by decide, by decide, by decide, by decide⟩

/-- Claim C9 as amended: if any of the four required configuration values is
unset (or empty), the process never reaches the transport-connection phase:
it returns after logging a generic error and printing the fixed list of all
four variable names, without identifying which specific values are missing. -/
theorem startup_missing_config_behaviour (cfg : Config)
    (h : missingVarNames cfg ≠ []) :
    mainStartup cfg = .configError missingVarsPrintout ∧
    mainStartup cfg ≠ .started := by
  have key : configAllSet cfg = false := by
    cases hcc : configAllSet cfg with
    | false => rfl
    | true =>
      exfalso
      apply h
      unfold configAllSet at hcc
      simp only [Bool.and_eq_true, Bool.not_eq_true'] at hcc
      obtain ⟨⟨⟨hc1, hc2⟩, hc3⟩, hc4⟩ := hcc
      unfold missingVarNames
      rw [hc1, hc2, hc3, hc4]
      rfl
  constructor
  · simp [mainStartup, key]
  · simp [mainStartup, key]

/-- Witness for C9: startup with only the Telegram token unset. -/
theorem startup_missing_config_behaviour_witness :
    mainStartup cfgMissingTelegram = .configError missingVarsPrintout ∧
    mainStartup cfgMissingTelegram ≠ .started :=
  startup_missing_config_behaviour cfgMissingTelegram (by decide)

/-- A `/trello` invocation replying to a message with empty text but a
usable caption, over a board with a `Todo` list. -/
def captionFallbackEnv : ReplyEnv :=
  ⟨some ⟨some "", some "hello"⟩,
   .response 200 (some [⟨"5", "Todo"⟩]),
   .response 200 (some ⟨"card-json"⟩)⟩

/-- A `/trello` invocation replying to a message with empty text and no
caption. -/
def emptyTextEnv : ReplyEnv :=
  ⟨some ⟨some "", none⟩, .netFailure "down", .netFailure "down"⟩

/-- Claim C10: an empty (but present) primary text falls back to the
caption as source text; when both text and caption are absent or empty the
handler replies that the message contains no text and makes no outbound
call; otherwise the list fetch is attempted, and when text is empty and the
caption is `c`, any card sent upstream is named from `c`. -/
theorem reply_text_caption_fallback (env : ReplyEnv) (reply : RepliedMessage)
    (h : env.reply_to_message = some reply) :
    (reply.text = some "" → pyOr reply.text reply.caption = reply.caption) ∧
    (pyFalsy reply.text = true → pyFalsy reply.caption = true →
       telegram_trello_reply_command env = ⟨[], [trelloNoTextMsg]⟩) ∧
    (¬ (pyFalsy reply.text = true ∧ pyFalsy reply.caption = true) →
       Call.listLists ∈ (telegram_trello_reply_command env).calls) ∧
    (∀ c, reply.text = some "" → reply.caption = some c →
       ∀ i n d, Call.createCard i n d ∈ (telegram_trello_reply_command env).calls →
         n = deriveCardName c) := by
  refine ⟨?_, ?_, ?_, ?_⟩
  · intro ht
    rw [ht]
    simp [pyOr]
  · intro ht hc
    simp only [telegram_trello_reply_command, h]
    cases hpo : pyOr reply.text reply.caption with
    | none => simp [hpo]
    | some s =>
      have hpf : pyFalsy (pyOr reply.text reply.caption) = true := by
        rw [pyFalsy_pyOr, ht, hc]
        rfl
      rw [hpo] at hpf
      have hs : s = "" := by simpa [pyFalsy] using hpf
      simp [hpo, hs]
  · intro hcond
    have hff : pyFalsy (pyOr reply.text reply.caption) = false := by
      rw [pyFalsy_pyOr]
      cases hx : pyFalsy reply.text with
      | false => rfl
      | true =>
        cases hy : pyFalsy reply.caption with
        | false => rfl
        | true => exact absurd ⟨hx, hy⟩ hcond
    cases hpo : pyOr reply.text reply.caption with
    | none =>
      rw [hpo] at hff
      simp [pyFalsy] at hff
    | some s =>
      rw [hpo] at hff
      have hs : s ≠ "" := by simpa [pyFalsy] using hff
      exact (reply_calls_characterization env reply s h hpo hs).1
  · intro c ht hc i n d hmem
    by_cases hce : c = ""
    · have hpo : pyOr reply.text reply.caption = some "" := by
        rw [ht, hc, hce]
        rfl
      have hout : telegram_trello_reply_command env = ⟨[], [trelloNoTextMsg]⟩ := by
        simp only [telegram_trello_reply_command, h]
        simp [hpo]
      rw [hout] at hmem
      simp at hmem
    · have hpo : pyOr reply.text reply.caption = some c := by
        rw [ht, hc]
        rfl
      exact (reply_calls_characterization env reply c h hpo hce).2 i n d hmem

/-- Witness for C10: the caption fallback on a concrete invocation, the
no-text reply when text is empty and there is no caption, the outbound
fetch when the caption is usable, and the card named from the caption. -/
theorem reply_text_caption_fallback_witness :
    pyOr (some "") (some "hello") = some "hello" ∧
    telegram_trello_reply_command emptyTextEnv = ⟨[], [trelloNoTextMsg]⟩ ∧
    Call.listLists ∈ (telegram_trello_reply_command captionFallbackEnv).calls ∧
    "hello" = deriveCardName "hello" :=
  ⟨(reply_text_caption_fallback captionFallbackEnv ⟨some "", some "hello"⟩ rfl).1 rfl,
   (reply_text_caption_fallback emptyTextEnv ⟨some "", none⟩ rfl).2.1
     (by decide) (by decide),
   (reply_text_caption_fallback captionFallbackEnv ⟨some "", some "hello"⟩ rfl).2.2.1
     (by decide),
   (reply_text_caption_fallback captionFallbackEnv ⟨some "", some "hello"⟩ rfl).2.2.2
     "hello" rfl rfl "5" "hello" "" (by decide)⟩
